import Mathlib

/-!
Verification of the Aether desktop background shell
(`desktop/src-tauri/src`: `main.rs`, `tray.rs`, `hotkeys.rs`, `api.rs`,
`autostart.rs`) against its natural-language specification.

The Rust code is shallowly embedded: each OS / framework effect (window
show, focus, unminimize, hide, window construction, HTTP send, filesystem
append, autostart registration) is modelled by explicit state passing, and
each fallible external call takes its outcome as an explicit parameter.
-/

/-! ## Window model

A Tauri `Window` as observed through the calls the code makes:
`show` sets visibility, `set_focus` sets focus, `unminimize` clears the
minimized flag, `hide` clears visibility; `center` only moves the window
and is not part of the modelled state.  The builder options used by
`WindowBuilder` in `tray.rs` / `hotkeys.rs` are recorded as fields. -/
structure WinState where
  visible : Bool
  focused : Bool
  minimized : Bool
  title : String
  url : String
  width : Nat
  height : Nat
  minWidth : Nat
  minHeight : Nat
  resizable : Bool
  decorations : Bool
  alwaysOnTop : Bool
deriving DecidableEq

/-- The window set of the application, as label-indexed handles
(`app.get_window(label)` returns the first live window with that label). -/
abbrev Windows : Type := List (String × WinState)

/-- Models `app.get_window(label)`: the first window carrying `label`, if any. -/
def get_window : List (String × WinState) → String → Option WinState
  | [], _ => none
  | (l, w) :: rest, label => if l = label then some w else get_window rest label

/-- Apply an operation to the window handle returned by `get_window`. -/
def update_window : List (String × WinState) → String → (WinState → WinState) → List (String × WinState)
  | [], _, _ => []
  | (l, w) :: rest, label, f =>
      if l = label then (l, f w) :: rest else (l, w) :: update_window rest label f

/-- Number of live windows carrying a given label. -/
def countLabel : List (String × WinState) → String → Nat
  | [], _ => 0
  | (l, _) :: rest, label => (if l = label then 1 else 0) + countLabel rest label

/-! ## System tray router (`tray.rs`) -/

namespace Tray

/-- The tray interaction events `TrayManager::handle_tray_event` matches on
(`tauri::SystemTrayEvent`); `other` covers the wildcard `_ => {}` arm. -/
inductive SystemTrayEvent
  | leftClick
  | rightClick
  | doubleClick
  | menuItemClick (id : String)
  | other
deriving DecidableEq

/-- Which handler a tray event resolves to: `showMainWindow` for
`Self::show_main_window`, `showQuickCapture` for `Self::show_quick_capture`,
`showDashboard` / `showSettings` for the navigation handlers,
`exitApp code` for `app.exit(code)`, and `noAction` when the code only logs
(or does nothing). -/
inductive TrayAction
  | showMainWindow
  | showQuickCapture
  | showDashboard
  | showSettings
  | exitApp (code : Nat)
  | noAction
deriving DecidableEq

/-- Models `TrayManager::handle_menu_item_click`: fixed table over the menu-item
identifier; an unknown identifier is logged (`log::warn!`) and dropped. -/
def handle_menu_item_click (menu_id : String) : TrayAction :=
  match menu_id with
  | "show" => .showMainWindow
  | "capture" => .showQuickCapture
  | "dashboard" => .showDashboard
  | "settings" => .showSettings
  | "quit" => .exitApp 0
  | _ => .noAction

/-- Models `TrayManager::handle_tray_event`: left click and double click call
`show_main_window`; right click only logs (the OS renders the context menu);
a menu-item click goes through `handle_menu_item_click`. -/
def handle_tray_event : SystemTrayEvent → TrayAction
  | .leftClick => .showMainWindow
  | .rightClick => .noAction
  | .doubleClick => .showMainWindow
  | .menuItemClick id => handle_menu_item_click id
  | .other => .noAction

/-- Models `TrayManager::show_main_window`: on an existing `main` window the code
calls `show`, `set_focus`, `unminimize`, `center`; if the window is absent it
only logs an error. -/
def show_main_window (ws : Windows) : Windows :=
  match get_window ws "main" with
  | some _ =>
      update_window ws "main" fun w => { w with visible := true, focused := true, minimized := false }
  | none => ws

/-- The quick-capture window as built and then shown/focused by
the `WindowBuilder` chain of `TrayManager::show_quick_capture`. -/
def builtQuickCaptureWindow : WinState :=
  { visible := true, focused := true, minimized := false
    title := "Quick Capture - Aether", url := "quick-capture.html"
    width := 400, height := 300, minWidth := 350, minHeight := 250
    resizable := true, decorations := true, alwaysOnTop := true }

/-- Models `TrayManager::show_quick_capture`: on an existing `quick-capture` window
the code calls `show`, `set_focus`, `center` (no `unminimize`); otherwise it
builds the window (the build can fail, modelled by `buildOk`) and, on
success, shows and focuses it. -/
def show_quick_capture (buildOk : Bool) (ws : Windows) : Windows :=
  match get_window ws "quick-capture" with
  | some _ =>
      update_window ws "quick-capture" fun w => { w with visible := true, focused := true }
  | none =>
      if buildOk then ws ++ [("quick-capture", Tray.builtQuickCaptureWindow)] else ws

end Tray

/-! ## Global hotkey dispatcher (`hotkeys.rs`) -/

namespace Hotkeys

/-- Lookup in the `HashMap<u32, String>` field `hotkeys` (binding identifier
to logical action name), modelled as an association list. -/
def lookupAction : List (Nat × String) → Nat → Option String
  | [], _ => none
  | (i, a) :: rest, id => if i = id then some a else lookupAction rest id

/-- Models `HotkeyManager::register_quick_capture_hotkey`: registers
Ctrl+Shift+Space with the OS, which returns an opaque identifier
(`returnedId`), and inserts `(returnedId, "quick_capture")` into the map. -/
def register_quick_capture_hotkey (returnedId : Nat) (m : List (Nat × String)) :
    List (Nat × String) :=
  m ++ [(returnedId, "quick_capture")]

/-- Models `HotkeyManager::register_show_window_hotkey`: registers Ctrl+Shift+A
with the OS, which returns an opaque identifier (`returnedId`), and inserts
`(returnedId, "show_window")` into the map. -/
def register_show_window_hotkey (returnedId : Nat) (m : List (Nat × String)) :
    List (Nat × String) :=
  m ++ [(returnedId, "show_window")]

/-- The `hotkeys` map after `HotkeyManager::setup_hotkeys` has run both
registrations, given the identifiers the OS returned for the quick-capture
and show-window bindings. -/
def setup_hotkeys_table (qcId swId : Nat) : List (Nat × String) :=
  register_show_window_hotkey swId (register_quick_capture_hotkey qcId [])

/-- Models `HotkeyManager::is_quick_capture_hotkey`: hardcoded test `hotkey_id == 1`
("Assuming first registered hotkey"). -/
def is_quick_capture_hotkey (hotkey_id : Nat) : Bool :=
  hotkey_id = 1

/-- Models `HotkeyManager::is_show_window_hotkey`: hardcoded test `hotkey_id == 2`
("Assuming second registered hotkey"). -/
def is_show_window_hotkey (hotkey_id : Nat) : Bool :=
  hotkey_id = 2

/-- The handler a hotkey event dispatches to. -/
inductive HotkeyAction
  | quickCapture
  | showWindow
deriving DecidableEq

/-- Models `HotkeyManager::handle_hotkey_event`: guard chain over the hardcoded id
tests; an identifier matching neither is logged (`log::warn!`) and dropped
(`none`). -/
def handle_hotkey_event (hotkey_id : Nat) : Option HotkeyAction :=
  if is_quick_capture_hotkey hotkey_id then some .quickCapture
  else if is_show_window_hotkey hotkey_id then some .showWindow
  else none

/-- Models `global_hotkey::HotKeyState` of a received event. -/
inductive HotKeyState
  | pressed
  | released
deriving DecidableEq

/-- A `GlobalHotKeyEvent` as consumed by the listener: its binding
identifier and press state. -/
structure GlobalHotKeyEvent where
  id : Nat
  state : HotKeyState
deriving DecidableEq

/-- Models `HotkeyManager::listen_for_hotkey_events`: the listener loop over the
stream of received events; only `Pressed` events are handled, each through
`handle_hotkey_event`.  The result collects the dispatched actions in
order. -/
def listen_for_hotkey_events (events : List GlobalHotKeyEvent) : List HotkeyAction :=
  events.filterMap fun e =>
    match e.state with
    | .pressed => handle_hotkey_event e.id
    | .released => none

/-- Models `HotkeyManager::handle_quick_capture`: on an existing `quick-capture`
window the code calls `show`, `set_focus`, `center` (no `unminimize`);
otherwise it builds the window with the same builder chain as the tray
handler (failure modelled by `buildOk`) and, on success, shows and focuses
it. -/
def handle_quick_capture (buildOk : Bool) (ws : Windows) : Windows :=
  match get_window ws "quick-capture" with
  | some _ =>
      update_window ws "quick-capture" fun w => { w with visible := true, focused := true }
  | none =>
      if buildOk then ws ++ [("quick-capture", Tray.builtQuickCaptureWindow)] else ws

/-- Models `HotkeyManager::handle_show_window`: on an existing `main` window the
code calls `show`, `set_focus`, `unminimize`, `center`; absent, nothing
happens. -/
def handle_show_window (ws : Windows) : Windows :=
  match get_window ws "main" with
  | some _ =>
      update_window ws "main" fun w => { w with visible := true, focused := true, minimized := false }
  | none => ws

end Hotkeys

/-- A request to make the quick-capture window visible, arriving either via
the global hotkey (`HotkeyManager::handle_quick_capture`) or via the tray
menu (`TrayManager::show_quick_capture`); `buildOk` is the outcome the OS
would give a window construction attempted by that request. -/
inductive QCRequest
  | viaHotkey (buildOk : Bool)
  | viaTray (buildOk : Bool)
deriving DecidableEq

/-- Run a sequence of quick-capture visibility requests. -/
def runQCRequests : List QCRequest → Windows → Windows
  | [], ws => ws
  | .viaHotkey b :: rest, ws => runQCRequests rest (Hotkeys.handle_quick_capture b ws)
  | .viaTray b :: rest, ws => runQCRequests rest (Tray.show_quick_capture b ws)

/-! ## Idea capture service (`api.rs`) -/

namespace Api

/-- The filesystem state the local capture store touches: whether the
per-user `aether` data directory exists, and the `offline_ideas.txt` file
(`none` when absent, `some s` when present with content `s`). -/
structure Fs where
  dirExists : Bool
  file : Option String
deriving DecidableEq

/-- The record `store_idea_locally` appends:
`format!("[{}] {}\n", timestamp, idea)`. -/
def entry (ts idea : String) : String :=
  "[" ++ ts ++ "] " ++ idea ++ "\n"

/-- Models `ApiClient::store_idea_locally`: `create_dir_all` on the data directory,
then open `offline_ideas.txt` with `create(true).append(true)` and
`write_all` the entry.  `fsOk` models whether these filesystem calls
succeed; any failure propagates (`?`) as the error. -/
def store_idea_locally (fsOk : Bool) (ts idea : String) (fs : Fs) :
    Except String (String × Fs) :=
  if fsOk then
    .ok ("Idea stored locally (offline mode)",
         { dirExists := true, file := some ((fs.file.getD "") ++ entry ts idea) })
  else
    .error "io error"

/-- The outcome of `self.client.post(&url).json(&payload).send().await`
together with the subsequent body read: `response status bodyRead` is a
server response with the given status code, where `bodyRead` is the result
of `response.text()` (`none` models a failed body read); `sendError` is a
network failure or timeout. -/
inductive SendResult
  | response (status : Nat) (bodyRead : Option String)
  | sendError (msg : String)
deriving DecidableEq

/-- Models `response.status().is_success()`: a 2xx status code. -/
def statusIsSuccess (s : Nat) : Bool :=
  200 ≤ s && s < 300

/-- Models `ApiClient::capture_idea`: on a 2xx response return the body verbatim
(or the body-read error); on a non-2xx response or a send failure fall back
to `store_idea_locally`.  Returns the caller-visible result and the
resulting filesystem state. -/
def capture_idea (send : SendResult) (fsOk : Bool) (ts idea : String) (fs : Fs) :
    Except String String × Fs :=
  match send with
  | .response status bodyRead =>
      if statusIsSuccess status then
        match bodyRead with
        | some text => (.ok text, fs)
        | none => (.error "Failed to read response", fs)
      else
        match store_idea_locally fsOk ts idea fs with
        | .ok (msg, fs') => (.ok msg, fs')
        | .error e => (.error e, fs)
  | .sendError _ =>
      match store_idea_locally fsOk ts idea fs with
      | .ok (msg, fs') => (.ok msg, fs')
      | .error e => (.error e, fs)

/-- A sequence of fallback captures: each pair is the timestamp taken at
that call and the submitted content, appended by a (successful)
`store_idea_locally`. -/
def store_many : List (String × String) → Fs → Fs
  | [], fs => fs
  | (ts, idea) :: rest, fs =>
      match store_idea_locally true ts idea fs with
      | .ok r => store_many rest r.2
      | .error _ => store_many rest fs

/-- Concatenation of the records of a capture sequence, in submission
order. -/
def entriesConcat : List (String × String) → String
  | [] => ""
  | (ts, idea) :: rest => entry ts idea ++ entriesConcat rest

/-- Number of lines a string contributes to a line-oriented log file:
its newline count. -/
def countNewlines (s : String) : Nat :=
  s.data.count '\n'

end Api

/-! ## Process-level commands and window-event hook (`main.rs`) -/

namespace AppMain

/-- The `show_main_window` Tauri command: `show`, `set_focus`, `unminimize`
on the `main` window if it exists (each result discarded with `let _ =`);
no-op otherwise.  `showOk`, `focusOk`, `unminOk` model whether the
individual window calls succeed; a failed call has no effect and is
silently discarded. -/
def show_main_window (showOk focusOk unminOk : Bool) (ws : Windows) : Windows :=
  match get_window ws "main" with
  | some _ =>
      update_window ws "main" fun w =>
        { w with
          visible := if showOk then true else w.visible
          focused := if focusOk then true else w.focused
          minimized := if unminOk then false else w.minimized }
  | none => ws

/-- The `hide_main_window` Tauri command: `hide` on the `main` window if it
exists (result discarded with `let _ =`); no-op otherwise. -/
def hide_main_window (hideOk : Bool) (ws : Windows) : Windows :=
  match get_window ws "main" with
  | some _ =>
      update_window ws "main" fun w =>
        { w with visible := if hideOk then false else w.visible }
  | none => ws

/-- The `on_window_event` close hook: on `CloseRequested` the code runs
`event.window().hide().unwrap()` and then `api.prevent_close()`.  `hideOk`
is the outcome of the `hide` call; when it fails, `unwrap` panics
(`Except.error`) and `prevent_close` is never reached.  On success the
result is the new window state paired with `true` for "close was
prevented". -/
def on_window_close_requested (hideOk : Bool) (w : WinState) :
    Except String (WinState × Bool) :=
  if hideOk then
    .ok ({ w with visible := false }, true)
  else
    .error "called Result::unwrap on an Err value"

end AppMain

/-! ## Autostart control (`autostart.rs`) -/

namespace AutoStart

/-- Outcome of an `auto_launch` OS call (`enable()` / `disable()`). -/
inductive OsCallResult
  | ok
  | err (msg : String)
deriving DecidableEq

/-- Models `AutoStartManager::enable_autostart`: on OS success returns `Ok(true)`,
otherwise propagates the error. -/
def enable_autostart (os : OsCallResult) : Except String Bool :=
  match os with
  | .ok => .ok true
  | .err e => .error e

/-- Models `AutoStartManager::disable_autostart`: on OS success returns
`Ok(false)`, otherwise propagates the error. -/
def disable_autostart (os : OsCallResult) : Except String Bool :=
  match os with
  | .ok => .ok false
  | .err e => .error e

/-- Models `AutoStartManager::toggle_autostart`: branches on the requested flag,
never querying the OS autostart state. -/
def toggle_autostart (enableRes disableRes : OsCallResult) (enable : Bool) :
    Except String Bool :=
  if enable then enable_autostart enableRes else disable_autostart disableRes

end AutoStart

/-- The `toggle_autostart` Tauri command in `main.rs`: forwards
`AutoStartManager::toggle_autostart`, wrapping an error into a message
string. -/
def AppMain.toggle_autostart_cmd (enableRes disableRes : AutoStart.OsCallResult)
    (enable : Bool) : Except String Bool :=
  match AutoStart.toggle_autostart enableRes disableRes enable with
  | .ok enabled => .ok enabled
  | .error e => .error ("Failed to toggle autostart: " ++ e)

/-- C6: The tray event mapping: primary (left) click and double click
both resolve to showing the `main` window; right click dispatches no action;
menu-item selection resolves exactly the identifiers `show`, `capture`,
`dashboard`, `settings`, `quit`, any other identifier being logged and
dropped; and the `quit` item terminates the process with exit status `0`. -/
theorem tray_event_mapping :
    Tray.handle_tray_event .leftClick = .showMainWindow ∧
    Tray.handle_tray_event .doubleClick = .showMainWindow ∧
    Tray.handle_tray_event .rightClick = .noAction ∧
    Tray.handle_tray_event (.menuItemClick "show") = .showMainWindow ∧
    Tray.handle_tray_event (.menuItemClick "capture") = .showQuickCapture ∧
    Tray.handle_tray_event (.menuItemClick "dashboard") = .showDashboard ∧
    Tray.handle_tray_event (.menuItemClick "settings") = .showSettings ∧
    Tray.handle_tray_event (.menuItemClick "quit") = .exitApp 0 ∧
    ∀ id : String, id ∉ ["show", "capture", "dashboard", "settings", "quit"] →
      Tray.handle_tray_event (.menuItemClick id) = .noAction := by
  refine ⟨rfl, rfl, rfl, rfl, rfl, rfl, rfl, rfl, ?_⟩
  intro id h
  simp only [List.mem_cons, List.not_mem_nil, or_false, not_or] at h
  obtain ⟨h1, h2, h3, h4, h5⟩ := h
  show Tray.handle_menu_item_click id = .noAction
  unfold Tray.handle_menu_item_click
  split <;> simp_all

/-- Witness for `tray_event_mapping`: the unknown identifier `"bogus"` is
dropped. -/
theorem tray_event_mapping_witness :
    Tray.handle_tray_event (.menuItemClick "bogus") = .noAction :=
  tray_event_mapping.2.2.2.2.2.2.2.2 "bogus" (by decide)

/-- C2 (code bug): the registration table maps the OS-returned identifiers
to their actions, but `handle_hotkey_event` dispatches on the hardcoded
identifiers 1 and 2 and never consults the table.  When the OS returns
identifiers 3 (quick-capture) and 4 (show-window), the table resolves both,
yet the dispatcher drops both events — the dispatch decision is derived
from assumed registration numbering, contradicting the specified
invariant. -/
theorem hotkey_dispatch_ignores_registration_table :
    Hotkeys.lookupAction (Hotkeys.setup_hotkeys_table 3 4) 3 = some "quick_capture" ∧
    Hotkeys.lookupAction (Hotkeys.setup_hotkeys_table 3 4) 4 = some "show_window" ∧
    Hotkeys.handle_hotkey_event 3 = none ∧
    Hotkeys.handle_hotkey_event 4 = none := by
  refine ⟨?_, ?_, ?_, ?_⟩ <;> decide

/-- C4: an event whose binding identifier has no associated action is
dropped without affecting the rest of the stream — the listener output on
the remaining events is unchanged, so every subsequent valid event is still
dispatched (the listener is a total function: it cannot panic or
terminate). -/
theorem unknown_hotkey_dropped (id : Nat) (rest : List Hotkeys.GlobalHotKeyEvent)
    (h : Hotkeys.handle_hotkey_event id = none) :
    Hotkeys.listen_for_hotkey_events ({ id := id, state := .pressed } :: rest) =
      Hotkeys.listen_for_hotkey_events rest := by
  simp [Hotkeys.listen_for_hotkey_events, h]

/-- Witness for `unknown_hotkey_dropped`: the unregistered identifier 99 is
dropped and the following valid quick-capture event is still dispatched. -/
theorem unknown_hotkey_dropped_witness :
    Hotkeys.listen_for_hotkey_events
        [{ id := 99, state := .pressed }, { id := 1, state := .pressed }] =
      Hotkeys.listen_for_hotkey_events [{ id := 1, state := .pressed }] ∧
    Hotkeys.listen_for_hotkey_events [{ id := 1, state := .pressed }] =
      [Hotkeys.HotkeyAction.quickCapture] :=
  ⟨unknown_hotkey_dropped 99 [{ id := 1, state := .pressed }] (by decide), by decide⟩

/-- C7 (amended): when the `hide` call succeeds, a close request on a
managed window is converted into hiding it — only visibility changes — and
`prevent_close` suppresses the underlying close, so the process keeps
running.  (When the `hide` call fails the handler panics instead; see
`close_request_unwrap_counterexample`.) -/
theorem close_request_hides (w : WinState) :
    AppMain.on_window_close_requested true w =
      Except.ok ({ w with visible := false }, true) := rfl

/-- C7 counterexample: on a window whose `hide` call fails, the
`hide().unwrap()` in the close hook panics — the handler terminates
abnormally and `prevent_close` is never invoked, contradicting "the close
handler itself never terminates the process". -/
theorem close_request_unwrap_counterexample :
    AppMain.on_window_close_requested false Tray.builtQuickCaptureWindow =
      Except.error "called Result::unwrap on an Err value" := rfl

/-- C9: with no `main` window present, the `show_main_window` and
`hide_main_window` commands leave the window set unchanged and return
normally, whatever the outcomes of the underlying window calls would have
been (all their failures are discarded — the commands are total and cannot
surface an error). -/
theorem main_window_cmds_noop_when_absent
    (showOk focusOk unminOk hideOk : Bool) (ws : Windows)
    (h : get_window ws "main" = none) :
    AppMain.show_main_window showOk focusOk unminOk ws = ws ∧
    AppMain.hide_main_window hideOk ws = ws := by
  constructor <;> simp [AppMain.show_main_window, AppMain.hide_main_window, h]

/-- Witness for `main_window_cmds_noop_when_absent`: a window set holding
only the quick-capture window. -/
theorem main_window_cmds_noop_when_absent_witness :
    AppMain.show_main_window true false true
        [("quick-capture", Tray.builtQuickCaptureWindow)] =
      [("quick-capture", Tray.builtQuickCaptureWindow)] ∧
    AppMain.hide_main_window true
        [("quick-capture", Tray.builtQuickCaptureWindow)] =
      [("quick-capture", Tray.builtQuickCaptureWindow)] :=
  main_window_cmds_noop_when_absent true false true true
    [("quick-capture", Tray.builtQuickCaptureWindow)] (by decide)

/-- C10: whenever the `toggle_autostart` command succeeds, the boolean it
returns is exactly the requested flag — `Ok(true)` for an enable request,
`Ok(false)` for a disable request — independently of the OS call outcomes
(the implementation returns the literal, it never re-queries the OS
autostart state). -/
theorem toggle_autostart_returns_request
    (enableRes disableRes : AutoStart.OsCallResult) (enable b : Bool)
    (h : AppMain.toggle_autostart_cmd enableRes disableRes enable = Except.ok b) :
    b = enable := by
  cases enable <;> cases enableRes <;> cases disableRes <;>
    simp_all [AppMain.toggle_autostart_cmd, AutoStart.toggle_autostart,
      AutoStart.enable_autostart, AutoStart.disable_autostart]

/-- Witness for `toggle_autostart_returns_request`: enabling with a
successful OS call returns `Ok(true)`. -/
theorem toggle_autostart_returns_request_witness :
    AppMain.toggle_autostart_cmd AutoStart.OsCallResult.ok
        (AutoStart.OsCallResult.err "e") true = Except.ok true ∧
    (true : Bool) = true :=
  ⟨rfl, toggle_autostart_returns_request AutoStart.OsCallResult.ok
    (AutoStart.OsCallResult.err "e") true true rfl⟩

/-- Reading back a label after applying a window operation through its
handle. -/
theorem get_update_window (ws : List (String × WinState)) (label : String)
    (f : WinState → WinState) :
    get_window (update_window ws label f) label = (get_window ws label).map f := by
  induction ws with
  | nil => simp [get_window, update_window]
  | cons p rest ih =>
      obtain ⟨l, w⟩ := p
      by_cases hl : l = label <;> simp [get_window, update_window, hl, ih]

/-- Reading back a freshly constructed window when its label was absent. -/
theorem get_append_single (ws : List (String × WinState)) (l : String) (w : WinState)
    (h : get_window ws l = none) :
    get_window (ws ++ [(l, w)]) l = some w := by
  induction ws with
  | nil => simp [get_window]
  | cons p rest ih =>
      obtain ⟨l', w'⟩ := p
      by_cases hl : l' = l
      · simp [get_window, hl] at h
      · simp [get_window, hl] at h ⊢
        exact ih h

/-- Operating on a window handle neither creates nor destroys windows. -/
theorem countLabel_update (ws : List (String × WinState)) (label lab : String)
    (f : WinState → WinState) :
    countLabel (update_window ws label f) lab = countLabel ws lab := by
  induction ws with
  | nil => simp [update_window]
  | cons p rest ih =>
      obtain ⟨l, w⟩ := p
      by_cases hl : l = label <;> simp [update_window, countLabel, hl, ih]

/-- Constructing one window adds exactly one handle with its label. -/
theorem countLabel_append_single (ws : List (String × WinState)) (l lab : String)
    (w : WinState) :
    countLabel (ws ++ [(l, w)]) lab = countLabel ws lab + (if l = lab then 1 else 0) := by
  induction ws with
  | nil => simp [countLabel]
  | cons p rest ih =>
      obtain ⟨l', w'⟩ := p
      simp [countLabel, ih]
      omega

/-- An absent label has no live windows. -/
theorem countLabel_of_get_none (ws : List (String × WinState)) (lab : String)
    (h : get_window ws lab = none) :
    countLabel ws lab = 0 := by
  induction ws with
  | nil => simp [countLabel]
  | cons p rest ih =>
      obtain ⟨l, w⟩ := p
      by_cases hl : l = lab
      · simp [get_window, hl] at h
      · simp [get_window, countLabel, hl] at h ⊢
        exact ih h

/-- A tray quick-capture request preserves the singleton bound. -/
theorem qc_step_tray (b : Bool) (ws : Windows)
    (h : countLabel ws "quick-capture" ≤ 1) :
    countLabel (Tray.show_quick_capture b ws) "quick-capture" ≤ 1 := by
  rw [Tray.show_quick_capture]
  cases hget : get_window ws "quick-capture" with
  | some w => simpa [countLabel_update] using h
  | none =>
      cases b with
      | false => simpa using h
      | true => simp [countLabel_append_single, countLabel_of_get_none ws _ hget]

/-- A hotkey quick-capture request preserves the singleton bound. -/
theorem qc_step_hotkey (b : Bool) (ws : Windows)
    (h : countLabel ws "quick-capture" ≤ 1) :
    countLabel (Hotkeys.handle_quick_capture b ws) "quick-capture" ≤ 1 := by
  rw [Hotkeys.handle_quick_capture]
  cases hget : get_window ws "quick-capture" with
  | some w => simpa [countLabel_update] using h
  | none =>
      cases b with
      | false => simpa using h
      | true => simp [countLabel_append_single, countLabel_of_get_none ws _ hget]

/-- C5: along any sequence of quick-capture visibility requests — via
hotkey or via the tray menu, construction succeeding or failing — at most
one live window labelled `quick-capture` ever exists: each handler attempts
construction only when `get_window` finds no window with that label. -/
theorem quick_capture_singleton (reqs : List QCRequest) (ws : Windows)
    (h : countLabel ws "quick-capture" ≤ 1) :
    countLabel (runQCRequests reqs ws) "quick-capture" ≤ 1 := by
  induction reqs generalizing ws with
  | nil => exact h
  | cons r rest ih =>
      cases r with
      | viaHotkey b => exact ih _ (qc_step_hotkey b ws h)
      | viaTray b => exact ih _ (qc_step_tray b ws h)

/-- Witness for `quick_capture_singleton`: three interleaved requests from
the empty window set end with exactly one quick-capture window. -/
theorem quick_capture_singleton_witness :
    countLabel
        (runQCRequests [QCRequest.viaHotkey true, QCRequest.viaTray true,
          QCRequest.viaHotkey true] []) "quick-capture" ≤ 1 ∧
    countLabel
        (runQCRequests [QCRequest.viaHotkey true, QCRequest.viaTray true,
          QCRequest.viaHotkey true] []) "quick-capture" = 1 :=
  ⟨quick_capture_singleton
      [QCRequest.viaHotkey true, QCRequest.viaTray true, QCRequest.viaHotkey true]
      [] (by decide),
    by decide⟩

/-- C3 (amended): `ensure_visible` on an existing `main` window leaves it
visible, focused and non-minimized; on an existing `quick-capture` window
it leaves it visible and focused but leaves the minimization flag
unchanged (neither handler calls `unminimize`); when `quick-capture` is
absent and its construction succeeds, it is built with the declared
default geometry (400×300, minimum 350×250), shown and focused. -/
theorem ensure_visible_behavior :
    (∀ (ws : Windows) (w : WinState), get_window ws "main" = some w →
      get_window (Tray.show_main_window ws) "main" =
        some { w with visible := true, focused := true, minimized := false }) ∧
    (∀ (b : Bool) (ws : Windows) (w : WinState),
      get_window ws "quick-capture" = some w →
      get_window (Tray.show_quick_capture b ws) "quick-capture" =
        some { w with visible := true, focused := true }) ∧
    (∀ (b : Bool) (ws : Windows) (w : WinState),
      get_window ws "quick-capture" = some w →
      get_window (Hotkeys.handle_quick_capture b ws) "quick-capture" =
        some { w with visible := true, focused := true }) ∧
    (∀ ws : Windows, get_window ws "quick-capture" = none →
      get_window (Tray.show_quick_capture true ws) "quick-capture" =
        some Tray.builtQuickCaptureWindow) ∧
    (∀ ws : Windows, get_window ws "quick-capture" = none →
      get_window (Hotkeys.handle_quick_capture true ws) "quick-capture" =
        some Tray.builtQuickCaptureWindow) := by
  refine ⟨fun ws w h => ?_, fun b ws w h => ?_, fun b ws w h => ?_,
    fun ws h => ?_, fun ws h => ?_⟩
  · rw [Tray.show_main_window]
    simp [h, get_update_window]
  · rw [Tray.show_quick_capture]
    simp [h, get_update_window]
  · rw [Hotkeys.handle_quick_capture]
    simp [h, get_update_window]
  · rw [Tray.show_quick_capture]
    simp [h, get_append_single ws _ _ h]
  · rw [Hotkeys.handle_quick_capture]
    simp [h, get_append_single ws _ _ h]

/-- Witness for `ensure_visible_behavior`: each clause applied at a
concrete window set. -/
theorem ensure_visible_behavior_witness :
    (get_window (Tray.show_main_window [("main", Tray.builtQuickCaptureWindow)]) "main" =
      some { Tray.builtQuickCaptureWindow with
              visible := true, focused := true, minimized := false }) ∧
    (get_window
        (Tray.show_quick_capture false
          [("quick-capture", Tray.builtQuickCaptureWindow)]) "quick-capture" =
      some { Tray.builtQuickCaptureWindow with visible := true, focused := true }) ∧
    (get_window
        (Hotkeys.handle_quick_capture false
          [("quick-capture", Tray.builtQuickCaptureWindow)]) "quick-capture" =
      some { Tray.builtQuickCaptureWindow with visible := true, focused := true }) ∧
    (get_window (Tray.show_quick_capture true []) "quick-capture" =
      some Tray.builtQuickCaptureWindow) ∧
    (get_window (Hotkeys.handle_quick_capture true []) "quick-capture" =
      some Tray.builtQuickCaptureWindow) :=
  ⟨ensure_visible_behavior.1 _ _ (by decide),
    ensure_visible_behavior.2.1 false _ _ (by decide),
    ensure_visible_behavior.2.2.1 false _ _ (by decide),
    ensure_visible_behavior.2.2.2.1 _ (by decide),
    ensure_visible_behavior.2.2.2.2 _ (by decide)⟩

/-- C3 counterexample: `ensure_visible` on an existing but minimized
`quick-capture` window leaves it minimized — the handlers call `show` and
`set_focus` but never `unminimize`, so the window is not brought to the
normal (non-minimized) state the claim requires. -/
theorem ensure_visible_minimized_counterexample :
    get_window
        (Tray.show_quick_capture true
          [("quick-capture",
            { visible := false, focused := false, minimized := true,
              title := "Quick Capture - Aether", url := "quick-capture.html",
              width := 400, height := 300, minWidth := 350, minHeight := 250,
              resizable := true, decorations := true, alwaysOnTop := true })])
        "quick-capture" =
      some { visible := true, focused := true, minimized := true,
             title := "Quick Capture - Aether", url := "quick-capture.html",
             width := 400, height := 300, minWidth := 350, minHeight := 250,
             resizable := true, decorations := true, alwaysOnTop := true } := by
  decide

/-- C1 (amended): excluding the one anomalous environment in which the
remote gateway acknowledges with 2xx but the response body cannot be read,
`capture_idea` (i) succeeds whenever the local filesystem works, (ii) on
success has retained the idea either remotely (a read 2xx response) or
locally (the entry appended to the log file), and (iii) surfaces a hard
failure only when the local append itself fails.  (In the excluded
body-read case the code returns a hard failure without attempting the
local append; see `capture_idea_body_read_counterexample`.) -/
theorem capture_idea_durability
    (send : Api.SendResult) (fsOk : Bool) (ts idea : String) (fs : Api.Fs)
    (h : ∀ s : Nat, Api.statusIsSuccess s = true →
      send ≠ Api.SendResult.response s none) :
    (fsOk = true → (Api.capture_idea send fsOk ts idea fs).1.isOk = true) ∧
    ((Api.capture_idea send fsOk ts idea fs).1.isOk = true →
      ((∃ s body, send = Api.SendResult.response s (some body) ∧
          Api.statusIsSuccess s = true) ∨
        (Api.capture_idea send fsOk ts idea fs).2.file =
          some ((fs.file.getD "") ++ Api.entry ts idea))) ∧
    ((Api.capture_idea send fsOk ts idea fs).1.isOk = false → fsOk = false) := by
  cases send with
  | response status bodyRead =>
      by_cases hs : Api.statusIsSuccess status = true
      · cases bodyRead with
        | some body =>
            refine ⟨fun _ => ?_, fun _ => Or.inl ⟨status, body, rfl, hs⟩,
              fun hk => ?_⟩
            · simp [Api.capture_idea, hs, Except.isOk, Except.toBool]
            · simp [Api.capture_idea, hs, Except.isOk, Except.toBool] at hk
        | none => exact absurd rfl (h status hs)
      · cases fsOk <;>
          simp [Api.capture_idea, Api.store_idea_locally, hs, Except.isOk,
            Except.toBool]
  | sendError msg =>
      cases fsOk <;>
        simp [Api.capture_idea, Api.store_idea_locally, Except.isOk, Except.toBool]

/-- Witness for `capture_idea_durability`: a network failure with a working
filesystem yields a success outcome with the idea appended to an initially
absent log file. -/
theorem capture_idea_durability_witness :
    ((Api.capture_idea (Api.SendResult.sendError "connection refused") true
        "2025-01-01T00:00:00+00:00" "my idea"
        { dirExists := false, file := none }).1.isOk = true) ∧
    ((Api.capture_idea (Api.SendResult.sendError "connection refused") true
        "2025-01-01T00:00:00+00:00" "my idea"
        { dirExists := false, file := none }).2.file =
      some "[2025-01-01T00:00:00+00:00] my idea\n") :=
  ⟨(capture_idea_durability (Api.SendResult.sendError "connection refused") true
      "2025-01-01T00:00:00+00:00" "my idea" { dirExists := false, file := none }
      (fun s _ => by simp)).1 rfl,
    by decide⟩

/-- C1 counterexample: when the remote gateway acknowledges with 2xx but
reading the response body fails, `capture_idea` surfaces a hard failure
even though the local filesystem is perfectly writable (`fsOk = true`), and
appends nothing locally — so a hard failure is surfaced by a call in which
the local append did not fail, contradicting the claim. -/
theorem capture_idea_body_read_counterexample :
    (Api.capture_idea (Api.SendResult.response 200 none) true
        "2025-01-01T00:00:00+00:00" "my idea"
        { dirExists := false, file := none }).1 =
      Except.error "Failed to read response" ∧
    (Api.capture_idea (Api.SendResult.response 200 none) true
        "2025-01-01T00:00:00+00:00" "my idea"
        { dirExists := false, file := none }).2 =
      { dirExists := false, file := none } := by
  constructor <;> rfl

/-- The whole capture log built by a sequence of successful local appends
starting from an existing file. -/
theorem store_many_file (ps : List (String × String)) :
    ∀ (d : Bool) (c : String),
      (Api.store_many ps { dirExists := d, file := some c }).file =
        some (c ++ Api.entriesConcat ps) := by
  induction ps with
  | nil => intro d c; simp [Api.store_many, Api.entriesConcat, String.append_empty]
  | cons p rest ih =>
      intro d c
      obtain ⟨ts, idea⟩ := p
      simp [Api.store_many, Api.store_idea_locally, Api.entriesConcat, ih,
        String.append_assoc]

/-- C8 (amended): a successful local append appends exactly the record
`"[" ++ ts ++ "] " ++ content ++ "\n"` to the log file — creating the
directory and the file on demand and preserving all previously appended
content as a prefix, so nothing is overwritten, truncated or deleted; the
record is exactly one line whenever the timestamp and the content contain
no newline; and after any sequence of fallback captures the log is exactly
the concatenation of their records in submission order.  (A content
containing a newline produces more than one line from a single append; see
`local_append_one_line_counterexample`.) -/
theorem local_append_behavior :
    (∀ (ts idea : String) (fs : Api.Fs),
      Api.store_idea_locally true ts idea fs =
        Except.ok ("Idea stored locally (offline mode)",
          { dirExists := true,
            file := some ((fs.file.getD "") ++ Api.entry ts idea) })) ∧
    (∀ ts idea : String, '\n' ∉ ts.data → '\n' ∉ idea.data →
      Api.countNewlines (Api.entry ts idea) = 1) ∧
    (∀ (ps : List (String × String)) (d : Bool),
      ((Api.store_many ps { dirExists := d, file := none }).file.getD "") =
        Api.entriesConcat ps) := by
  refine ⟨fun ts idea fs => rfl, fun ts idea hts hidea => ?_, fun ps d => ?_⟩
  · simp [Api.countNewlines, Api.entry, String.data_append, List.count_append,
      List.count_eq_zero.mpr hts, List.count_eq_zero.mpr hidea]
  · cases ps with
    | nil => simp [Api.store_many, Api.entriesConcat]
    | cons p rest =>
        obtain ⟨ts, idea⟩ := p
        simp [Api.store_many, Api.store_idea_locally, Api.entriesConcat,
          store_many_file, String.empty_append]

/-- Witness for `local_append_behavior`: two fallback captures starting
from an absent log file leave exactly their two one-line records in
submission order. -/
theorem local_append_behavior_witness :
    Api.store_idea_locally true "2025-01-01T00:00:00+00:00" "idea A"
        { dirExists := false, file := none } =
      Except.ok ("Idea stored locally (offline mode)",
        { dirExists := true, file := some "[2025-01-01T00:00:00+00:00] idea A\n" }) ∧
    Api.countNewlines (Api.entry "2025-01-01T00:00:00+00:00" "idea A") = 1 ∧
    ((Api.store_many
        [("2025-01-01T00:00:00+00:00", "idea A"),
          ("2025-01-01T00:00:01+00:00", "idea B")]
        { dirExists := false, file := none }).file.getD "") =
      Api.entriesConcat
        [("2025-01-01T00:00:00+00:00", "idea A"),
          ("2025-01-01T00:00:01+00:00", "idea B")] :=
  ⟨by
      have h := local_append_behavior.1 "2025-01-01T00:00:00+00:00" "idea A"
        { dirExists := false, file := none }
      simpa using h,
    local_append_behavior.2.1 "2025-01-01T00:00:00+00:00" "idea A"
      (by decide) (by decide),
    local_append_behavior.2.2
      [("2025-01-01T00:00:00+00:00", "idea A"),
        ("2025-01-01T00:00:01+00:00", "idea B")] false⟩

/-- C8 counterexample: a single local append of a content containing a
newline writes two lines to the log, not exactly one. -/
theorem local_append_one_line_counterexample :
    Api.store_idea_locally true "2025-01-01T00:00:00+00:00" "line one\nline two"
        { dirExists := false, file := none } =
      Except.ok ("Idea stored locally (offline mode)",
        { dirExists := true,
          file := some "[2025-01-01T00:00:00+00:00] line one\nline two\n" }) ∧
    Api.countNewlines "[2025-01-01T00:00:00+00:00] line one\nline two\n" = 2 := by
  constructor
  · rfl
  · decide
